import Mathlib

/-!
Verification of the git-ray repository (a GitHub-profile analysis service).

The development shallowly embeds the three source files:
* `src/lib/github.ts` — the profile data client (`fetchGitHubData`),
* `src/lib/groq.ts` — the critique engine client (`analyzeWithGroq`),
* `src/app/api/analyze/route.ts` — the request orchestrator (`POST`).

Remote collaborators (the GitHub REST API and the LLM service) are modelled
as explicit environments (`GitHubEnv`, and a function producing a `GroqReply`).
Every outbound REST call the code makes is also recorded in a trace of
`ApiCall` values, so that claims about which calls are issued can be stated.
The nondeterministic completion order of the `Promise.all` fan-out over the
ranked repositories is modelled by an explicit `popOrder` list parameter; the
theorems quantify over any permutation of the ranked working set.
-/

/-! ### String helpers

JavaScript string primitives used by the source, modelled over `List Char`.
-/

/-- Model of JavaScript `String.prototype.startsWith` on char lists. -/
def charsStartWith : List Char → List Char → Bool
  | _, [] => true
  | [], _ :: _ => false
  | c :: cs, d :: ds => c == d && charsStartWith cs ds

/-- Model of JavaScript `String.prototype.includes` on char lists:
the second list occurs contiguously somewhere in the first. -/
def charsInclude : List Char → List Char → Bool
  | [], pat => pat.isEmpty
  | c :: cs, pat => charsStartWith (c :: cs) pat || charsInclude cs pat

/-- JavaScript `haystack.includes(pat)`. -/
def strIncludes (s pat : String) : Bool :=
  charsInclude s.toList pat.toList

/-- JavaScript `s.startsWith(pat)`. -/
def strStartsWith (s pat : String) : Bool :=
  charsStartWith s.toList pat.toList

/-- JavaScript `s.toLowerCase()` (ASCII case mapping, which is all the
source's path comparisons rely on). -/
def lowerStr (s : String) : String :=
  String.mk (s.toList.map Char.toLower)

/-- JavaScript `s.slice(0, n)`. -/
def strTake (s : String) (n : Nat) : String :=
  String.mk (s.toList.take n)

/-- Characters removed by JavaScript `String.prototype.trim` (the common
whitespace code points). -/
def jsWhitespaceChar (c : Char) : Bool :=
  c == ' ' || c == '\t' || c == '\n' || c == '\r' ||
  c == '\x0b' || c == '\x0c' || c == '\u00A0' || c == '\uFEFF'

/-- JavaScript `s.trim()`. -/
def jsTrim (s : String) : String :=
  String.mk (((s.toList.dropWhile jsWhitespaceChar).reverse.dropWhile
    jsWhitespaceChar).reverse)

/-- Characters kept by the sanitizer regex `[^a-zA-Z0-9-]` in
`route.ts` line 17 (ASCII alphanumerics and hyphen). -/
def usernameChar (c : Char) : Bool :=
  c.isAlpha || c.isDigit || c == '-'

/-- `username.replace(/[^a-zA-Z0-9-]/g, "")` (route.ts line 17). -/
def stripUsername (s : String) : String :=
  String.mk (s.toList.filter usernameChar)

/-- `username.trim().replace(/[^a-zA-Z0-9-]/g, "")` (route.ts line 17). -/
def sanitize (s : String) : String :=
  stripUsername (jsTrim s)

/-! ### Data model (src/lib/github.ts lines 7–75) -/

/-- `GitHubUser` (github.ts lines 7–19). -/
structure GitHubUser where
  login : String
  name : Option String
  avatar_url : String
  bio : Option String
  company : Option String
  location : Option String
  blog : Option String
  public_repos : Nat
  followers : Nat
  following : Nat
  created_at : String
deriving DecidableEq, Inhabited

/-- `GitHubRepo` (github.ts lines 21–35).  The `license` field models the
`{ name: string } | null` object by the license name. -/
structure GitHubRepo where
  name : String
  full_name : String
  description : Option String
  html_url : String
  language : Option String
  stargazers_count : Nat
  forks_count : Nat
  open_issues_count : Nat
  topics : List String
  has_readme : Bool
  license : Option String
  updated_at : String
  created_at : String
deriving DecidableEq, Inhabited

/-- `CommitActivity` (github.ts lines 37–42). -/
structure CommitActivity where
  repo : String
  totalCommits : Nat
  recentCommits : Nat
  lastCommitDate : Option String
deriving DecidableEq, Inhabited

/-- `CodeQualitySignals` (github.ts lines 44–58). -/
structure CodeQualitySignals where
  repo : String
  hasCI : Bool
  hasTests : Bool
  hasDocs : Bool
  hasLinting : Bool
  hasGitignore : Bool
  hasContributing : Bool
  hasChangelog : Bool
  hasDotGithub : Bool
  hasEnvExample : Bool
  hasDockerfile : Bool
  fileCount : Nat
  directoryStructure : List String
deriving DecidableEq, Inhabited

/-- `LanguageStats` (github.ts lines 60–62): a JavaScript object mapping
language names to byte counts, modelled as an insertion-ordered
association list. -/
def LanguageStats : Type := List (String × Nat)

instance : DecidableEq LanguageStats :=
  inferInstanceAs (DecidableEq (List (String × Nat)))

instance : Inhabited LanguageStats := ⟨([] : List (String × Nat))⟩

/-- `GitHubData` (github.ts lines 64–75): the aggregated bundle. -/
structure GitHubData where
  user : GitHubUser
  repos : List GitHubRepo
  topRepoTree : Option (List String)
  topRepoReadme : Option String
  commitActivity : List CommitActivity
  codeQuality : List CodeQualitySignals
  languageStats : LanguageStats
  totalStars : Nat
  totalForks : Nat
  accountAgeDays : Int
deriving DecidableEq, Inhabited

/-! ### Remote API model -/

/-- Raw user record returned by `octokit.rest.users.getByUsername`
(the fields read at github.ts lines 98–110). -/
structure ApiUser where
  login : String
  name : Option String
  avatar_url : String
  bio : Option String
  company : Option String
  location : Option String
  blog : Option String
  public_repos : Nat
  followers : Nat
  following : Nat
  created_at : String
deriving DecidableEq, Inhabited

/-- Raw repository record returned by `octokit.rest.repos.listForUser`
(the fields read at github.ts lines 124–181).  Fields the octokit types
mark as possibly undefined are `Option`; `license` models the nested
`{ name?: string } | null` object. -/
structure ApiRepo where
  name : String
  full_name : String
  description : Option String
  html_url : String
  language : Option String
  stargazers_count : Option Nat
  forks_count : Option Nat
  open_issues_count : Option Nat
  topics : Option (List String)
  license : Option (Option String)
  fork : Bool
  updated_at : Option String
  created_at : Option String
deriving DecidableEq, Inhabited

/-- Entry type in a git tree listing (github.ts lines 232–240). -/
inductive TreeItemType where
  | blob
  | tree
  | commitLink
deriving DecidableEq

/-- Entry of the recursive tree returned by `octokit.rest.git.getTree`. -/
structure TreeItem where
  type : TreeItemType
  path : Option String
deriving DecidableEq

/-- Raw commit record; only `commit?.committer?.date` is read
(github.ts line 202). -/
structure ApiCommit where
  committerDate : Option String
deriving DecidableEq

/-- Failure of `octokit.rest.users.getByUsername`: a 404 status is
distinguished at github.ts line 92; anything else rethrows. -/
inductive ApiFailure where
  | status404
  | otherFailure
deriving DecidableEq

/-- One outbound GitHub REST call, as recorded in the call trace. -/
inductive ApiCall where
  | getUser (username : String)
  | listForUser (username : String)
  | listLanguages (owner repo : String)
  | getReadme (owner repo : String)
  | listCommits (owner repo : String) (since : Option Int)
  | getRepoInfo (owner repo : String)
  | getTree (owner repo : String)
deriving DecidableEq

/-- `true` for every call other than the initial profile resolution. -/
def repoRelated : ApiCall → Bool
  | .getUser _ => false
  | _ => true

/-- The GitHub REST API as a deterministic environment.  `getRepoInfo`
returns the default branch (the only field of `repos.get` the source
reads, github.ts line 228); `listCommits` takes the optional `since`
bound in epoch milliseconds; timestamps are epoch milliseconds via
`nowMs`/`dateMs` (modelling `Date.now()` and `new Date(s).getTime()`). -/
structure GitHubEnv where
  getUser : String → Except ApiFailure ApiUser
  listForUser : String → Except Unit (List ApiRepo)
  listLanguages : String → String → Option (List (String × Nat))
  getReadme : String → String → Option String
  listCommits : String → String → Option Int → Option (List ApiCommit)
  getRepoInfo : String → String → Option String
  getTree : String → String → String → Option (List TreeItem)
  nowMs : Int
  dateMs : String → Int

/-! ### Quality heuristics (github.ts lines 219–272) -/

/-- CI pattern set (github.ts line 244). -/
def ciPatterns : List String :=
  [".github/workflows", ".gitlab-ci.yml", "Jenkinsfile", ".circleci", ".travis.yml"]

/-- Test pattern set (github.ts line 245). -/
def testPatterns : List String :=
  ["test", "tests", "__tests__", "spec", "specs", ".test.", ".spec."]

/-- Lint pattern set (github.ts line 246). -/
def lintPatterns : List String :=
  [".eslintrc", ".eslintrc.js", ".eslintrc.json", "eslint.config", ".prettierrc",
   ".pylintrc", "pyproject.toml", ".flake8", "biome.json"]

/-- Documentation pattern set (github.ts line 247). -/
def docPatterns : List String :=
  ["docs", "documentation", "doc"]

/-- Blob paths of a tree: `tree.filter(type === "blob").map(path ?? "").filter(Boolean)`
(github.ts lines 232–235). -/
def blobPaths (items : List TreeItem) : List String :=
  ((items.filter (fun i => i.type == TreeItemType.blob)).map
    (fun i => i.path.getD "")).filter (fun p => p != "")

/-- Directory paths of a tree (github.ts lines 237–240). -/
def dirPaths (items : List TreeItem) : List String :=
  ((items.filter (fun i => i.type == TreeItemType.tree)).map
    (fun i => i.path.getD "")).filter (fun p => p != "")

/-- The quality-signal record computed from a successfully fetched tree
(github.ts lines 242–263). -/
def qualityFromTree (rname : String) (items : List TreeItem) : CodeQualitySignals :=
  let files := blobPaths items
  let dirs := dirPaths items
  let allPaths := (files ++ dirs).map lowerStr
  { repo := rname
    hasCI := ciPatterns.any (fun p => allPaths.any (fun f => strIncludes f (lowerStr p)))
    hasTests := testPatterns.any (fun p => allPaths.any (fun f => strIncludes f (lowerStr p)))
    hasDocs := docPatterns.any (fun p => allPaths.any (fun f => strStartsWith f p))
    hasLinting := lintPatterns.any (fun p => allPaths.any (fun f => strIncludes f (lowerStr p)))
    hasGitignore := allPaths.contains ".gitignore"
    hasContributing := allPaths.any (fun f => strIncludes f "contributing")
    hasChangelog := allPaths.any (fun f => strIncludes f "changelog")
    hasDotGithub := allPaths.any (fun f => strStartsWith f ".github")
    hasEnvExample := allPaths.any (fun f => strIncludes f ".env.example" || strIncludes f ".env.sample")
    hasDockerfile := allPaths.any (fun f => strIncludes f "dockerfile")
    fileCount := files.length
    directoryStructure := dirs.take 15 }

/-- The placeholder record pushed when the tree fetch fails
(github.ts lines 264–272). -/
def placeholderQuality (rname : String) : CodeQualitySignals :=
  { repo := rname
    hasCI := false, hasTests := false, hasDocs := false, hasLinting := false
    hasGitignore := false, hasContributing := false, hasChangelog := false
    hasDotGithub := false, hasEnvExample := false, hasDockerfile := false
    fileCount := 0, directoryStructure := [] }

/-- The tree fetch for a repository fails when either the repository
lookup (for the default branch) or the recursive tree listing fails —
both sit inside one `try` block (github.ts lines 220–231). -/
def treeFetchFails (env : GitHubEnv) (username rname : String) : Bool :=
  match env.getRepoInfo username rname with
  | none => true
  | some branch => (env.getTree username rname branch).isNone

/-! ### Per-repository fan-out (github.ts lines 156–274) -/

/-- 30 days in milliseconds (github.ts line 186). -/
def thirtyDaysMs : Int := 30 * 24 * 60 * 60 * 1000

/-- Result of one task of the `Promise.all` fan-out over the ranked
repositories: the entries pushed onto `repos`, `commitActivity` and
`codeQuality`, plus the REST calls the task issued. -/
structure RepoResult where
  repoEntry : GitHubRepo
  activity : CommitActivity
  quality : CodeQualitySignals
  calls : List ApiCall

/-- One task of the fan-out (github.ts lines 157–273): README probe,
repo record construction, commit-activity fetch (page sizes 1 and 100,
modelling `per_page`), and tree fetch with quality heuristics. -/
def processRepo (env : GitHubEnv) (username : String) (repo : ApiRepo) : RepoResult :=
  let has_readme := (env.getReadme username repo.name).isSome
  let entry : GitHubRepo :=
    { name := repo.name
      full_name := repo.full_name
      description := repo.description
      html_url := repo.html_url
      language := repo.language
      stargazers_count := repo.stargazers_count.getD 0
      forks_count := repo.forks_count.getD 0
      open_issues_count := repo.open_issues_count.getD 0
      topics := repo.topics.getD []
      has_readme := has_readme
      license := repo.license.map (fun n => n.getD "Unknown")
      updated_at := repo.updated_at.getD ""
      created_at := repo.created_at.getD "" }
  let since := env.nowMs - thirtyDaysMs
  let allCommits := (env.listCommits username repo.name none).map (fun l => l.take 1)
  let recent := (env.listCommits username repo.name (some since)).map (fun l => l.take 100)
  let activity : CommitActivity :=
    match allCommits, recent with
    | some allC, some recC =>
      { repo := repo.name
        totalCommits := if allC.length > 0 then 1 else 0
        recentCommits := recC.length
        lastCommitDate := allC.head?.bind (fun c => c.committerDate) }
    | _, _ =>
      { repo := repo.name, totalCommits := 0, recentCommits := 0, lastCommitDate := none }
  let quality : CodeQualitySignals :=
    match env.getRepoInfo username repo.name with
    | none => placeholderQuality repo.name
    | some branch =>
      match env.getTree username repo.name branch with
      | none => placeholderQuality repo.name
      | some items => qualityFromTree repo.name items
  let treeCalls : List ApiCall :=
    match env.getRepoInfo username repo.name with
    | none => [.getRepoInfo username repo.name]
    | some _ => [.getRepoInfo username repo.name, .getTree username repo.name]
  { repoEntry := entry
    activity := activity
    quality := quality
    calls := [.getReadme username repo.name,
              .listCommits username repo.name none,
              .listCommits username repo.name (some since)] ++ treeCalls }

/-! ### Star-descending sorts (github.ts lines 125–127 and 277) -/

/-- Ordering used by `sort((a, b) => (b.stargazers_count ?? 0) - (a.stargazers_count ?? 0))`
on raw repos (github.ts line 126). -/
def apiStarGE (a b : ApiRepo) : Prop :=
  b.stargazers_count.getD 0 ≤ a.stargazers_count.getD 0

instance : DecidableRel apiStarGE :=
  fun a b => Nat.decLe (b.stargazers_count.getD 0) (a.stargazers_count.getD 0)

instance : IsTotal ApiRepo apiStarGE :=
  ⟨fun a b => Nat.le_total (b.stargazers_count.getD 0) (a.stargazers_count.getD 0)⟩

instance : IsTrans ApiRepo apiStarGE :=
  ⟨fun _ _ _ h1 h2 => Nat.le_trans h2 h1⟩

/-- Ordering used by `repos.sort((a, b) => b.stargazers_count - a.stargazers_count)`
(github.ts line 277). -/
def ghStarGE (a b : GitHubRepo) : Prop :=
  b.stargazers_count ≤ a.stargazers_count

instance : DecidableRel ghStarGE :=
  fun a b => Nat.decLe b.stargazers_count a.stargazers_count

instance : IsTotal GitHubRepo ghStarGE :=
  ⟨fun a b => Nat.le_total b.stargazers_count a.stargazers_count⟩

instance : IsTrans GitHubRepo ghStarGE :=
  ⟨fun _ _ _ h1 h2 => Nat.le_trans h2 h1⟩

/-- JavaScript `Array.prototype.sort` with the star-descending comparator
on raw repos, modelled by a stable comparison sort. -/
def sortApiByStars (l : List ApiRepo) : List ApiRepo :=
  List.insertionSort apiStarGE l

/-- The final re-sort of the populated repo list (github.ts line 277). -/
def sortGhByStars (l : List GitHubRepo) : List GitHubRepo :=
  List.insertionSort ghStarGE l

/-- The ranked working set: non-fork repos of the 30-per-page listing,
sorted by stars descending, top 6 (github.ts lines 124–127). -/
def rankedRepos (page : List ApiRepo) : List ApiRepo :=
  (sortApiByStars ((page.take 30).filter (fun r => !r.fork))).take 6

/-! ### Language aggregation (github.ts lines 133–149) -/

/-- `languageStats[lang] = (languageStats[lang] || 0) + bytes` on a
JavaScript object, modelled on the insertion-ordered association list. -/
def addLang : List (String × Nat) → String → Nat → List (String × Nat)
  | [], lang, bytes => [(lang, bytes)]
  | (k, v) :: rest, lang, bytes =>
    if k == lang then (k, v + bytes) :: rest
    else (k, v) :: addLang rest lang bytes

/-! ### Top-repo deep dive (github.ts lines 279–325) -/

/-- The deep dive into the top-ranked repository: gated on the quality
record found by name having a non-empty `directoryStructure`, the
repository and its recursive tree are fetched (again) and the blob paths
capped at 50; the raw README is fetched and truncated to 3000 characters. -/
def deepDive (env : GitHubEnv) (username : String) (repos : List GitHubRepo)
    (codeQuality : List CodeQualitySignals) :
    Option (List String) × Option String × List ApiCall :=
  match repos.head? with
  | none => (none, none, [])
  | some topRepo =>
    let treeRes : Option (List String) × List ApiCall :=
      match codeQuality.find? (fun q => q.repo == topRepo.name) with
      | some topQuality =>
        if topQuality.directoryStructure.length > 0 then
          match env.getRepoInfo username topRepo.name with
          | none => (none, [ApiCall.getRepoInfo username topRepo.name])
          | some branch =>
            match env.getTree username topRepo.name branch with
            | none =>
              (none, [ApiCall.getRepoInfo username topRepo.name,
                      ApiCall.getTree username topRepo.name])
            | some items =>
              (some ((blobPaths items).take 50),
               [ApiCall.getRepoInfo username topRepo.name,
                ApiCall.getTree username topRepo.name])
        else (none, [])
      | none => (none, [])
    let readme := (env.getReadme username topRepo.name).map (fun s => strTake s 3000)
    (treeRes.1, readme, treeRes.2 ++ [ApiCall.getReadme username topRepo.name])

/-! ### The aggregation pipeline (github.ts lines 84–332) -/

/-- Failure of `fetchGitHubData`: the distinguished `GitHubNotFoundError`
(carrying the username, github.ts lines 77–82) or any other rethrown
exception. -/
inductive FetchErr where
  | notFoundErr (username : String)
  | genericErr
deriving DecidableEq

/-- The message of `GitHubNotFoundError` (github.ts line 79). -/
def notFoundMessage (username : String) : String :=
  "GitHub user \"" ++ username ++ "\" not found"

/-- Everything `fetchGitHubData` does after the user profile and the
repository page have been fetched successfully (github.ts lines 98–331).
`popOrder` is the order in which the concurrent per-repository tasks
complete and push their results; it is a permutation of the ranked
working set.  Returns the bundle and the REST calls issued after the
first two. -/
def buildGitHubData (env : GitHubEnv) (username : String) (user : ApiUser)
    (page : List ApiRepo) (popOrder : List ApiRepo) : GitHubData × List ApiCall :=
  let ghUser : GitHubUser :=
    { login := user.login, name := user.name, avatar_url := user.avatar_url
      bio := user.bio, company := user.company, location := user.location
      blog := user.blog, public_repos := user.public_repos
      followers := user.followers, following := user.following
      created_at := user.created_at }
  let accountAgeDays := Int.fdiv (env.nowMs - env.dateMs ghUser.created_at) 86400000
  let allRepos := (page.take 30).filter (fun r => !r.fork)
  let totalStars := allRepos.foldl (fun s r => s + r.stargazers_count.getD 0) 0
  let totalForks := allRepos.foldl (fun s r => s + r.forks_count.getD 0) 0
  let langSample := allRepos.take 15
  let languageStats : LanguageStats :=
    langSample.foldl (fun m r =>
      match env.listLanguages username r.name with
      | none => m
      | some entries => entries.foldl (fun m2 e => addLang m2 e.1 e.2) m) []
  let langCalls := langSample.map (fun r => ApiCall.listLanguages username r.name)
  let results := popOrder.map (processRepo env username)
  let repos := sortGhByStars (results.map (fun r => r.repoEntry))
  let commitActivity := results.map (fun r => r.activity)
  let codeQuality := results.map (fun r => r.quality)
  let fanoutCalls := (results.map (fun r => r.calls)).flatten
  let deep := deepDive env username repos codeQuality
  ({ user := ghUser
     repos := repos
     topRepoTree := deep.1
     topRepoReadme := deep.2.1
     commitActivity := commitActivity
     codeQuality := codeQuality
     languageStats := languageStats
     totalStars := totalStars
     totalForks := totalForks
     accountAgeDays := accountAgeDays },
   langCalls ++ fanoutCalls ++ deep.2.2)

/-- `fetchGitHubData` (github.ts lines 84–332) with the fan-out
completion order made explicit.  A 404 from the user lookup becomes the
distinguished not-found error (github.ts lines 89–96); any other user
lookup failure, and any failure of the repository listing, propagates as
a generic failure. -/
def fetchGitHubDataAux (env : GitHubEnv) (username : String)
    (popOrder : List ApiRepo) : Except FetchErr GitHubData × List ApiCall :=
  match env.getUser username with
  | .error .status404 => (.error (.notFoundErr username), [.getUser username])
  | .error .otherFailure => (.error .genericErr, [.getUser username])
  | .ok user =>
    match env.listForUser username with
    | .error _ => (.error .genericErr, [.getUser username, .listForUser username])
    | .ok page =>
      let b := buildGitHubData env username user page popOrder
      (.ok b.1, .getUser username :: .listForUser username :: b.2)

/-- `fetchGitHubData` with the canonical completion order (tasks complete
in the order they were started). -/
def fetchGitHubData (env : GitHubEnv) (username : String) :
    Except FetchErr GitHubData × List ApiCall :=
  fetchGitHubDataAux env username
    (match env.listForUser username with
     | .ok page => rankedRepos page
     | .error _ => [])

/-! ### Critique engine client (src/lib/groq.ts) -/

/-- A JavaScript number: a finite value or NaN.  `Math.round`,
`Math.min` and `Math.max` all propagate NaN.  (Infinities are left out:
`JSON.parse` never produces one and no claim concerns them.) -/
inductive JsNum where
  | fin (q : ℚ)
  | nan
deriving DecidableEq, Inhabited

/-- JavaScript `Math.round` on a finite number: floor of `x + 1/2`. -/
def jsRound (q : ℚ) : Int := ⌊q + 1/2⌋

/-- JavaScript `Math.round` on any number (NaN propagates). -/
def jsRoundN : JsNum → JsNum
  | .fin q => .fin ((jsRound q : Int) : ℚ)
  | .nan => .nan

/-- JavaScript `Math.min(bound, x)` with a finite (literal) first
argument, as written at groq.ts lines 1039–1043: NaN propagates. -/
def jsMin (bound : ℚ) : JsNum → JsNum
  | .fin q => .fin (min bound q)
  | .nan => .nan

/-- JavaScript `Math.max(bound, x)` with a finite (literal) first
argument: NaN propagates. -/
def jsMax (bound : ℚ) : JsNum → JsNum
  | .fin q => .fin (max bound q)
  | .nan => .nan

/-- `Math.max(0, Math.min(100, Math.round(q)))` (groq.ts line 1039). -/
def clamp100 (q : ℚ) : Int := max 0 (min 100 (jsRound q))

/-- `Math.max(0, Math.min(10, Math.round(q)))` on a validated (hence
finite) number (groq.ts line 1040). -/
def clamp10 (q : ℚ) : Int := max 0 (min 10 (jsRound q))

/-- `Math.max(0, Math.min(10, Math.round(x)))` on an arbitrary
JavaScript number (groq.ts lines 1041–1043, where the argument is never
type-checked and may be NaN). -/
def clamp10N (x : JsNum) : JsNum := jsMax 0 (jsMin 10 (jsRoundN x))

/-- Whether a JavaScript number is an integer lying within `[lo, hi]`
(false for NaN). -/
def isIntWithin (lo hi : ℚ) : JsNum → Bool
  | .fin q => q.den == 1 && decide (lo ≤ q) && decide (q ≤ hi)
  | .nan => false

/-- `AnalysisResult` (groq.ts lines 904–916), after validation.  The
overall score and the readme sub-score pass a `typeof ... === "number"`
check (and `JSON.parse` never yields NaN), so after clamping they are
integers; the three optional sub-scores are never type-checked, so after
`Math.round(x ?? 5)` they are JavaScript numbers that may be NaN. -/
structure AnalysisResult where
  score : Int
  headline : String
  red_flags : List String
  green_flags : List String
  readme_score : Int
  code_quality_score : JsNum
  consistency_score : JsNum
  diversity_score : JsNum
  improvement_plan : List String
  tech_stack_verdict : String
  commit_verdict : String
deriving DecidableEq, Inhabited

/-- The raw parsed LLM JSON object before validation.  The required
fields (checked at groq.ts lines 1027–1036) are absent or a value of
their checked type; JSON numbers are modelled as rationals.  The three
optional sub-scores are never type-checked and flow straight into
`Math.round(x ?? 5)`, which observes only the value's JavaScript numeric
coercion, so each is modelled by that coercion: `none` for a missing
field, `undefined` or JSON `null` (all replaced by the `??` default);
`some (JsNum.fin q)` for a present value coercing to the number `q` (a
JSON number, a boolean, a numeric string); `some JsNum.nan` for a
present value coercing to NaN (e.g. the non-numeric string "N/A").  The
two verdict strings are only consumed via `?? sentinel`, and only their
absence is claimed about, so absent-or-string suffices for them. -/
structure RawAnalysis where
  score : Option ℚ
  headline : Option String
  red_flags : Option (List String)
  green_flags : Option (List String)
  readme_score : Option ℚ
  code_quality_score : Option JsNum
  consistency_score : Option JsNum
  diversity_score : Option JsNum
  improvement_plan : Option (List String)
  tech_stack_verdict : Option String
  commit_verdict : Option String
deriving DecidableEq, Inhabited

/-- The validation and clamping of the parsed LLM response
(groq.ts lines 1027–1047): reject when a required field is absent,
otherwise clamp the scores and substitute defaults.  The unchecked
optional sub-scores go through the NaN-propagating clamp. -/
def analyzeValidate (parsed : RawAnalysis) : Except String AnalysisResult :=
  match parsed.score, parsed.headline, parsed.red_flags, parsed.green_flags,
        parsed.readme_score, parsed.improvement_plan with
  | some score, some headline, some rf, some gf, some rs, some ip =>
    .ok { score := clamp100 score
          headline := headline
          red_flags := rf
          green_flags := gf
          readme_score := clamp10 rs
          code_quality_score := clamp10N (parsed.code_quality_score.getD (JsNum.fin 5))
          consistency_score := clamp10N (parsed.consistency_score.getD (JsNum.fin 5))
          diversity_score := clamp10N (parsed.diversity_score.getD (JsNum.fin 5))
          improvement_plan := ip
          tech_stack_verdict := parsed.tech_stack_verdict.getD "No assessment available."
          commit_verdict := parsed.commit_verdict.getD "No assessment available." }
  | _, _, _, _, _, _ => .error "Groq response did not match expected schema"

/-- Outcome of the LLM completion call as seen by `analyzeWithGroq`:
no content (groq.ts lines 1020–1022), content that is not valid JSON
(`JSON.parse` throws at line 1024), or a parsed object. -/
inductive GroqReply where
  | noContent
  | badJson
  | parsed (raw : RawAnalysis)

/-- `analyzeWithGroq` (groq.ts lines 918–1048) given the completion
outcome for the prompt built from the bundle.  The prompt text itself is
not modelled; no claim concerns it. -/
def analyzeWithGroq (reply : GroqReply) : Except String AnalysisResult :=
  match reply with
  | .noContent => .error "Groq returned empty response"
  | .badJson => .error "JSON parse failure"
  | .parsed raw => analyzeValidate raw

/-! ### Request orchestrator (src/app/api/analyze/route.ts) -/

/-- The `username` field of the parsed request body: missing (or any
falsy value), a string, or a non-string truthy value. -/
inductive BodyField where
  | missing
  | strVal (s : String)
  | nonString
deriving DecidableEq

/-- The inbound request body: either `request.json()` throws, or it
yields an object with a `username` field. -/
inductive ReqBody where
  | invalidJson
  | jsonBody (username : BodyField)
deriving DecidableEq

/-- A value of the flat success response object (route.ts lines 32–42). -/
inductive RVal where
  | userV (u : GitHubUser)
  | reposV (l : List GitHubRepo)
  | analysisV (a : AnalysisResult)
  | commitsV (l : List CommitActivity)
  | qualityV (l : List CodeQualitySignals)
  | langsV (l : LanguageStats)
  | natV (n : Nat)
  | intV (n : Int)
deriving DecidableEq

/-- Body of an HTTP response produced by the route: an error object
`{ error: message }` or the flat success object. -/
inductive ResponseBody where
  | errObj (message : String)
  | jsonObj (entries : List (String × RVal))
deriving DecidableEq

/-- A `NextResponse.json` result: status code and body. -/
structure HttpResponse where
  status : Nat
  body : ResponseBody
deriving DecidableEq

/-- The flat success object built by the orchestrator
(route.ts lines 32–42), field by field. -/
def mergedResponse (g : GitHubData) (a : AnalysisResult) : List (String × RVal) :=
  [("user", RVal.userV g.user),
   ("repos", RVal.reposV g.repos),
   ("analysis", RVal.analysisV a),
   ("commitActivity", RVal.commitsV g.commitActivity),
   ("codeQuality", RVal.qualityV g.codeQuality),
   ("languageStats", RVal.langsV g.languageStats),
   ("totalStars", RVal.natV g.totalStars),
   ("totalForks", RVal.natV g.totalForks),
   ("accountAgeDays", RVal.intV g.accountAgeDays)]

/-- The generic server-error message (route.ts line 53). -/
def genericErrorMessage : String :=
  "Failed to analyze profile. Please try again."

/-- The part of the handler after sanitization succeeded
(route.ts lines 26–56): fetch, analyze, merge; `GitHubNotFoundError`
maps to 404 with its message, anything else to the generic 500. -/
def runPipeline (env : GitHubEnv) (groq : GitHubData → GroqReply)
    (popOrder : List ApiRepo) (sanitized : String) :
    HttpResponse × List ApiCall :=
  match fetchGitHubDataAux env sanitized popOrder with
  | (.error (.notFoundErr u), calls) =>
    ({ status := 404, body := .errObj (notFoundMessage u) }, calls)
  | (.error .genericErr, calls) =>
    ({ status := 500, body := .errObj genericErrorMessage }, calls)
  | (.ok g, calls) =>
    match analyzeWithGroq (groq g) with
    | .error _ => ({ status := 500, body := .errObj genericErrorMessage }, calls)
    | .ok a => ({ status := 200, body := .jsonObj (mergedResponse g a) }, calls)

/-- The `POST` handler (route.ts lines 5–57).  A body that fails JSON
parsing throws inside the same `try` as everything else and is caught by
the catch-all, yielding the generic 500.  `!username` also catches the
empty string (a falsy value), so it shares the "Username is required"
branch. -/
def POST (env : GitHubEnv) (groq : GitHubData → GroqReply)
    (popOrder : List ApiRepo) (body : ReqBody) : HttpResponse × List ApiCall :=
  match body with
  | .invalidJson => ({ status := 500, body := .errObj genericErrorMessage }, [])
  | .jsonBody f =>
    match f with
    | .missing => ({ status := 400, body := .errObj "Username is required" }, [])
    | .nonString => ({ status := 400, body := .errObj "Username is required" }, [])
    | .strVal s =>
      if s = "" then ({ status := 400, body := .errObj "Username is required" }, [])
      else
        let sanitized := sanitize s
        if sanitized = "" then
          ({ status := 400, body := .errObj "Invalid username format" }, [])
        else runPipeline env groq popOrder sanitized

/-! ### Fixtures

Concrete environments used by witnesses and counterexamples.
-/

/-- Fixture repository record builder. -/
def mkApiRepo (owner rname : String) (stars forks : Nat) (isFork : Bool) : ApiRepo :=
  { name := rname
    full_name := owner ++ "/" ++ rname
    description := some "demo"
    html_url := "https://github.com/" ++ owner ++ "/" ++ rname
    language := some "Python"
    stargazers_count := some stars
    forks_count := some forks
    open_issues_count := some 0
    topics := some []
    license := some (some "MIT")
    fork := isFork
    updated_at := some "2026-01-02T00:00:00Z"
    created_at := some "2020-01-02T00:00:00Z" }

/-- Fixture profile. -/
def userA : ApiUser :=
  { login := "alice", name := some "Alice", avatar_url := "https://a.png"
    bio := none, company := none, location := none, blog := none
    public_repos := 8, followers := 3, following := 1
    created_at := "2020-01-01T00:00:00Z" }

/-- Fixture repository page: seven non-fork repos whose top-6 star sum
(155) differs from the full-set sum (156), plus one fork that every
aggregate must ignore. -/
def pageA : List ApiRepo :=
  [mkApiRepo "alice" "gamma" 30 3 false,
   mkApiRepo "alice" "alpha" 50 5 false,
   mkApiRepo "alice" "forky" 1000 99 true,
   mkApiRepo "alice" "beta" 40 4 false,
   mkApiRepo "alice" "delta" 20 2 false,
   mkApiRepo "alice" "epsi" 10 1 false,
   mkApiRepo "alice" "zeta" 5 0 false,
   mkApiRepo "alice" "eta" 1 0 false]

/-- Fixture tree of the top repository: one directory and two blobs. -/
def treeA : List TreeItem :=
  [{ type := TreeItemType.tree, path := some "src" },
   { type := TreeItemType.blob, path := some "src/main.py" },
   { type := TreeItemType.blob, path := some "README.md" }]

/-- Fixture environment: profile "alice" resolves; the tree fetch for
"beta" fails (repository lookup fails); everything else succeeds. -/
def envA : GitHubEnv :=
  { getUser := fun u => if u = "alice" then .ok userA else .error .status404
    listForUser := fun u => if u = "alice" then .ok pageA else .error ()
    listLanguages := fun _ r => if r = "alpha" then some [("Python", 2048)] else none
    getReadme := fun _ r => if r = "alpha" then some "Alpha readme body" else none
    listCommits := fun _ r since =>
      if r = "alpha" then
        match since with
        | none => some [{ committerDate := some "2026-01-02T00:00:00Z" }]
        | some _ => some [{ committerDate := some "2026-01-02T00:00:00Z" },
                          { committerDate := some "2026-01-01T00:00:00Z" }]
      else some []
    getRepoInfo := fun _ r => if r = "beta" then none else some "main"
    getTree := fun _ r _ => if r = "alpha" then some treeA else none
    nowMs := 1750000000000
    dateMs := fun _ => 1577923200000 }

/-- Canonical fan-out order for `envA`. -/
def ordA : List ApiRepo := rankedRepos pageA

/-- The bundle `fetchGitHubData` produces on `envA`. -/
def gA : GitHubData :=
  match (fetchGitHubDataAux envA "alice" ordA).1 with
  | .ok g => g
  | .error _ => default

/-- The trace `fetchGitHubData` produces on `envA`. -/
def callsA : List ApiCall := (fetchGitHubDataAux envA "alice" ordA).2

/-- Fixture environment in which no profile resolves. -/
def envB : GitHubEnv :=
  { getUser := fun _ => .error .status404
    listForUser := fun _ => .error ()
    listLanguages := fun _ _ => none
    getReadme := fun _ _ => none
    listCommits := fun _ _ _ => none
    getRepoInfo := fun _ _ => none
    getTree := fun _ _ _ => none
    nowMs := 0
    dateMs := fun _ => 0 }

/-- Fixture environment for the top-repo deep dive: profile "carol" owns
one repository "solo" whose tree is fetched successfully and is
non-empty (one blob) but contains no directory entries. -/
def envC : GitHubEnv :=
  { getUser := fun u => if u = "carol" then .ok { userA with login := "carol" } else .error .status404
    listForUser := fun u => if u = "carol" then .ok [mkApiRepo "carol" "solo" 7 0 false] else .error ()
    listLanguages := fun _ _ => none
    getReadme := fun _ _ => some "Solo readme"
    listCommits := fun _ _ _ => some []
    getRepoInfo := fun _ _ => some "main"
    getTree := fun _ r _ =>
      if r = "solo" then some [{ type := TreeItemType.blob, path := some "main.py" }] else none
    nowMs := 1750000000000
    dateMs := fun _ => 1577923200000 }

/-- Canonical fan-out order for `envC`. -/
def ordC : List ApiRepo := rankedRepos [mkApiRepo "carol" "solo" 7 0 false]

/-- The bundle `fetchGitHubData` produces on `envC`. -/
def gC : GitHubData :=
  match (fetchGitHubDataAux envC "carol" ordC).1 with
  | .ok g => g
  | .error _ => default

/-- Fixture raw LLM response with every field present and two scores out
of range. -/
def rawFull : RawAnalysis :=
  { score := some (87.5 : ℚ)
    headline := some "Solid"
    red_flags := some ["few tests"]
    green_flags := some ["has CI"]
    readme_score := some (13.7 : ℚ)
    code_quality_score := some (JsNum.fin 7)
    consistency_score := some (JsNum.fin (-2.4 : ℚ))
    diversity_score := some (JsNum.fin 6)
    improvement_plan := some ["add tests"]
    tech_stack_verdict := some "Good breadth."
    commit_verdict := some "Active." }

/-- Fixture raw LLM response with only the required fields present. -/
def rawMin : RawAnalysis :=
  { score := some (55.4 : ℚ)
    headline := some "Okay"
    red_flags := some []
    green_flags := some []
    readme_score := some (13.7 : ℚ)
    code_quality_score := none
    consistency_score := none
    diversity_score := none
    improvement_plan := some []
    tech_stack_verdict := none
    commit_verdict := none }

/-- The validated critique for `rawFull`. -/
def aFull : AnalysisResult :=
  match analyzeValidate rawFull with
  | .ok a => a
  | .error _ => default

/-- The validated critique for `rawMin`. -/
def aMin : AnalysisResult :=
  match analyzeValidate rawMin with
  | .ok a => a
  | .error _ => default

/-- Fixture raw LLM response whose optional code-quality sub-score is a
present non-numeric value (e.g. the JSON string "N/A", whose JavaScript
numeric coercion is NaN); the required fields all pass validation. -/
def rawNaN : RawAnalysis :=
  { rawMin with code_quality_score := some JsNum.nan }

/-- The validated critique for `rawNaN`. -/
def aNaN : AnalysisResult :=
  match analyzeValidate rawNaN with
  | .ok a => a
  | .error _ => default

/-- Fixture LLM collaborator that always returns `rawFull`. -/
def groqA : GitHubData → GroqReply := fun _ => GroqReply.parsed rawFull

/-! ### Helper lemmas -/

theorem sortApiByStars_pairwise (l : List ApiRepo) :
    (sortApiByStars l).Pairwise apiStarGE :=
  List.sorted_insertionSort apiStarGE l

theorem sortApiByStars_length (l : List ApiRepo) :
    (sortApiByStars l).length = l.length :=
  (List.perm_insertionSort apiStarGE l).length_eq

theorem sortGhByStars_pairwise (l : List GitHubRepo) :
    (sortGhByStars l).Pairwise ghStarGE :=
  List.sorted_insertionSort ghStarGE l

theorem sortGhByStars_length (l : List GitHubRepo) :
    (sortGhByStars l).length = l.length :=
  (List.perm_insertionSort ghStarGE l).length_eq

theorem foldl_add_eq_sum {α : Type} (f : α → Nat) (l : List α) (n : Nat) :
    l.foldl (fun s r => s + f r) n = n + (l.map f).sum := by
  induction l generalizing n with
  | nil => simp
  | cons a t ih => simp [ih, Nat.add_assoc]

theorem charsStartWith_nil (l : List Char) : charsStartWith l [] = true := by
  cases l <;> rfl

theorem charsStartWith_append (m q : List Char) : charsStartWith (m ++ q) m = true := by
  induction m with
  | nil => exact charsStartWith_nil q
  | cons c cs ih => simp [charsStartWith, ih]

theorem charsInclude_self_append (m q : List Char) : charsInclude (m ++ q) m = true := by
  cases m with
  | nil =>
    cases q with
    | nil => rfl
    | cons c cs => simp [charsInclude, charsStartWith_nil]
  | cons c cs =>
    simp only [charsInclude, Bool.or_eq_true]
    exact Or.inl (charsStartWith_append (c :: cs) q)

theorem charsInclude_append_left (p l m : List Char) (h : charsInclude l m = true) :
    charsInclude (p ++ l) m = true := by
  induction p with
  | nil => simpa using h
  | cons a t ih => simp [charsInclude, ih]

theorem strIncludes_append_mid (a m b : String) :
    strIncludes (a ++ (m ++ b)) m = true := by
  unfold strIncludes
  simp only [String.toList, String.data_append]
  exact charsInclude_append_left _ _ _ (charsInclude_self_append _ _)

theorem notFoundMessage_embeds (u : String) :
    strIncludes (notFoundMessage u) u = true := by
  have h := strIncludes_append_mid "GitHub user \"" u "\" not found"
  simpa [notFoundMessage, String.append_assoc] using h

theorem filter_dropWhile_excl {p w : Char → Bool}
    (h : ∀ c, w c = true → p c = false) :
    ∀ l : List Char, (l.dropWhile w).filter p = l.filter p := by
  intro l
  induction l with
  | nil => rfl
  | cons a t ih =>
    cases hw : w a with
    | true => simp [List.dropWhile_cons, hw, h a hw, ih]
    | false => simp [List.dropWhile_cons, hw]

theorem jsWhitespace_not_username (c : Char) (h : jsWhitespaceChar c = true) :
    usernameChar c = false := by
  unfold jsWhitespaceChar at h
  simp only [Bool.or_eq_true, beq_iff_eq] at h
  rcases h with (((((((h | h) | h) | h) | h) | h) | h) | h) <;> subst h <;> decide

theorem sanitize_eq_strip (s : String) : sanitize s = stripUsername s := by
  unfold sanitize stripUsername jsTrim
  congr 1
  show ((((s.toList.dropWhile jsWhitespaceChar).reverse.dropWhile
      jsWhitespaceChar).reverse).filter usernameChar) = s.toList.filter usernameChar
  rw [List.filter_reverse, filter_dropWhile_excl jsWhitespace_not_username,
    List.filter_reverse, List.reverse_reverse,
    filter_dropWhile_excl jsWhitespace_not_username]

theorem fetch_ok_build (env : GitHubEnv) (u : String) (popOrder : List ApiRepo)
    (user : ApiUser) (page : List ApiRepo)
    (hgu : env.getUser u = .ok user) (hpage : env.listForUser u = .ok page) :
    fetchGitHubDataAux env u popOrder =
      (.ok (buildGitHubData env u user page popOrder).1,
       .getUser u :: .listForUser u :: (buildGitHubData env u user page popOrder).2) := by
  simp [fetchGitHubDataAux, hgu, hpage]

theorem fetch_ok_inv (env : GitHubEnv) (u : String) (popOrder : List ApiRepo)
    (g : GitHubData) (hok : (fetchGitHubDataAux env u popOrder).1 = .ok g) :
    ∃ user page, env.getUser u = .ok user ∧ env.listForUser u = .ok page ∧
      g = (buildGitHubData env u user page popOrder).1 := by
  cases hgu : env.getUser u with
  | error e => cases e <;> simp [fetchGitHubDataAux, hgu] at hok
  | ok user =>
    cases hpage : env.listForUser u with
    | error e => simp [fetchGitHubDataAux, hgu, hpage] at hok
    | ok page =>
      refine ⟨user, page, rfl, rfl, ?_⟩
      simp [fetchGitHubDataAux, hgu, hpage] at hok
      exact hok.symm

theorem build_repos_def (env : GitHubEnv) (u : String) (user : ApiUser)
    (page popOrder : List ApiRepo) :
    ((buildGitHubData env u user page popOrder).1).repos =
      sortGhByStars ((popOrder.map (processRepo env u)).map (fun r => r.repoEntry)) := rfl

theorem build_commitActivity_def (env : GitHubEnv) (u : String) (user : ApiUser)
    (page popOrder : List ApiRepo) :
    ((buildGitHubData env u user page popOrder).1).commitActivity =
      (popOrder.map (processRepo env u)).map (fun r => r.activity) := rfl

theorem build_codeQuality_def (env : GitHubEnv) (u : String) (user : ApiUser)
    (page popOrder : List ApiRepo) :
    ((buildGitHubData env u user page popOrder).1).codeQuality =
      (popOrder.map (processRepo env u)).map (fun r => r.quality) := rfl

theorem build_totalStars_def (env : GitHubEnv) (u : String) (user : ApiUser)
    (page popOrder : List ApiRepo) :
    ((buildGitHubData env u user page popOrder).1).totalStars =
      ((page.take 30).filter (fun r => !r.fork)).foldl
        (fun s r => s + r.stargazers_count.getD 0) 0 := rfl

theorem build_totalForks_def (env : GitHubEnv) (u : String) (user : ApiUser)
    (page popOrder : List ApiRepo) :
    ((buildGitHubData env u user page popOrder).1).totalForks =
      ((page.take 30).filter (fun r => !r.fork)).foldl
        (fun s r => s + r.forks_count.getD 0) 0 := rfl

theorem build_topRepoTree_def (env : GitHubEnv) (u : String) (user : ApiUser)
    (page popOrder : List ApiRepo) :
    ((buildGitHubData env u user page popOrder).1).topRepoTree =
      (deepDive env u ((buildGitHubData env u user page popOrder).1).repos
        ((buildGitHubData env u user page popOrder).1).codeQuality).1 := rfl

theorem build_topRepoReadme_def (env : GitHubEnv) (u : String) (user : ApiUser)
    (page popOrder : List ApiRepo) :
    ((buildGitHubData env u user page popOrder).1).topRepoReadme =
      (deepDive env u ((buildGitHubData env u user page popOrder).1).repos
        ((buildGitHubData env u user page popOrder).1).codeQuality).2.1 := rfl

theorem processRepo_quality_placeholder (env : GitHubEnv) (u : String) (r : ApiRepo)
    (h : treeFetchFails env u r.name = true) :
    (processRepo env u r).quality = placeholderQuality r.name := by
  unfold treeFetchFails at h
  cases hr : env.getRepoInfo u r.name with
  | none => simp [processRepo, hr]
  | some branch =>
    rw [hr] at h
    simp only [Option.isNone_iff_eq_none] at h
    simp [processRepo, hr, h]

theorem processRepo_activity_bounds (env : GitHubEnv) (u : String) (r : ApiRepo) :
    ((processRepo env u r).activity.totalCommits = 0 ∨
     (processRepo env u r).activity.totalCommits = 1) ∧
    (processRepo env u r).activity.recentCommits ≤ 100 := by
  cases h1 : env.listCommits u r.name none with
  | none => simp [processRepo, h1]
  | some allC =>
    cases h2 : env.listCommits u r.name (some (env.nowMs - thirtyDaysMs)) with
    | none => simp [processRepo, h1, h2]
    | some recC =>
      refine ⟨?_, ?_⟩
      · simp [processRepo, h1, h2]
        exact eq_or_ne allC []
      · simp [processRepo, h1, h2]

theorem deepDive_nil_head (env : GitHubEnv) (u : String)
    (repos : List GitHubRepo) (cq : List CodeQualitySignals)
    (h : repos.head? = none) :
    (deepDive env u repos cq).1 = none ∧ (deepDive env u repos cq).2.1 = none := by
  simp [deepDive, h]

theorem deepDive_tree_le (env : GitHubEnv) (u : String)
    (repos : List GitHubRepo) (cq : List CodeQualitySignals) (l : List String)
    (h : (deepDive env u repos cq).1 = some l) : l.length ≤ 50 := by
  cases hh : repos.head? with
  | none => simp [deepDive, hh] at h
  | some topRepo =>
    cases hq : cq.find? (fun q => q.repo == topRepo.name) with
    | none => simp [deepDive, hh, hq] at h
    | some topQuality =>
      by_cases hd : topQuality.directoryStructure.length > 0
      · cases hr : env.getRepoInfo u topRepo.name with
        | none => simp [deepDive, hh, hq, hd, hr] at h
        | some branch =>
          cases ht : env.getTree u topRepo.name branch with
          | none => simp [deepDive, hh, hq, hd, hr, ht] at h
          | some items =>
            simp [deepDive, hh, hq, hd, hr, ht] at h
            rw [← h]
            exact List.length_take_le 50 (blobPaths items)
      · simp [deepDive, hh, hq, hd] at h

theorem deepDive_readme (env : GitHubEnv) (u : String)
    (repos : List GitHubRepo) (cq : List CodeQualitySignals) (t : GitHubRepo)
    (h : repos.head? = some t) :
    (deepDive env u repos cq).2.1 =
      (env.getReadme u t.name).map (fun s => strTake s 3000) := by
  simp [deepDive, h]

theorem deepDive_empty_dirs (env : GitHubEnv) (u : String)
    (repos : List GitHubRepo) (cq : List CodeQualitySignals)
    (t : GitHubRepo) (q : CodeQualitySignals)
    (h : repos.head? = some t)
    (hq : cq.find? (fun r => r.repo == t.name) = some q)
    (hd : q.directoryStructure.length = 0) :
    (deepDive env u repos cq).1 = none := by
  simp [deepDive, h, hq, hd]

theorem deepDive_refetch_fails (env : GitHubEnv) (u : String)
    (repos : List GitHubRepo) (cq : List CodeQualitySignals) (t : GitHubRepo)
    (h : repos.head? = some t)
    (hf : treeFetchFails env u t.name = true) :
    (deepDive env u repos cq).1 = none := by
  unfold treeFetchFails at hf
  cases hq : cq.find? (fun r => r.repo == t.name) with
  | none => simp [deepDive, h, hq]
  | some topQuality =>
    cases hr : env.getRepoInfo u t.name with
    | none =>
      simp only [deepDive, h, hq, hr]
      split <;> rfl
    | some branch =>
      rw [hr] at hf
      simp only [Option.isNone_iff_eq_none] at hf
      simp only [deepDive, h, hq, hr, hf]
      split <;> rfl

theorem runPipeline_notfound (env : GitHubEnv) (groq : GitHubData → GroqReply)
    (popOrder : List ApiRepo) (u : String)
    (h404 : env.getUser u = .error .status404) :
    runPipeline env groq popOrder u =
      ({ status := 404, body := .errObj (notFoundMessage u) }, [ApiCall.getUser u]) := by
  simp [runPipeline, fetchGitHubDataAux, h404]

theorem runPipeline_generic (env : GitHubEnv) (groq : GitHubData → GroqReply)
    (popOrder : List ApiRepo) (u : String)
    (h : (fetchGitHubDataAux env u popOrder).1 = .error .genericErr) :
    (runPipeline env groq popOrder u).1 =
      { status := 500, body := .errObj genericErrorMessage } := by
  rcases hfe : fetchGitHubDataAux env u popOrder with ⟨res, calls⟩
  rw [hfe] at h
  simp at h
  subst h
  simp [runPipeline, hfe]

theorem runPipeline_groq_error (env : GitHubEnv) (groq : GitHubData → GroqReply)
    (popOrder : List ApiRepo) (u : String) (g : GitHubData) (e : String)
    (hok : (fetchGitHubDataAux env u popOrder).1 = .ok g)
    (he : analyzeWithGroq (groq g) = .error e) :
    (runPipeline env groq popOrder u).1 =
      { status := 500, body := .errObj genericErrorMessage } := by
  rcases hfe : fetchGitHubDataAux env u popOrder with ⟨res, calls⟩
  rw [hfe] at hok
  simp at hok
  subst hok
  simp [runPipeline, hfe, he]

theorem runPipeline_success (env : GitHubEnv) (groq : GitHubData → GroqReply)
    (popOrder : List ApiRepo) (u : String) (g : GitHubData)
    (calls : List ApiCall) (a : AnalysisResult)
    (hfe : fetchGitHubDataAux env u popOrder = (.ok g, calls))
    (ha : analyzeWithGroq (groq g) = .ok a) :
    runPipeline env groq popOrder u =
      ({ status := 200, body := .jsonObj (mergedResponse g a) }, calls) := by
  simp [runPipeline, hfe, ha]

theorem runPipeline_status (env : GitHubEnv) (groq : GitHubData → GroqReply)
    (popOrder : List ApiRepo) (u : String) :
    (runPipeline env groq popOrder u).1.status = 200 ∨
    (runPipeline env groq popOrder u).1.status = 404 ∨
    (runPipeline env groq popOrder u).1.status = 500 := by
  rcases hfe : fetchGitHubDataAux env u popOrder with ⟨res, calls⟩
  cases res with
  | error e => cases e <;> simp [runPipeline, hfe]
  | ok g =>
    cases ha : analyzeWithGroq (groq g) <;> simp [runPipeline, hfe, ha]

theorem clamp100_nonneg (q : ℚ) : 0 ≤ clamp100 q := le_max_left 0 _

theorem clamp100_le (q : ℚ) : clamp100 q ≤ 100 :=
  max_le (by norm_num) (min_le_left _ _)

theorem clamp10_nonneg (q : ℚ) : 0 ≤ clamp10 q := le_max_left 0 _

theorem clamp10_le (q : ℚ) : clamp10 q ≤ 10 :=
  max_le (by norm_num) (min_le_left _ _)

theorem clamp10_five : clamp10 5 = 5 := by norm_num [clamp10, jsRound]

theorem clamp10_of_13_7 : clamp10 (13.7 : ℚ) = 10 := by norm_num [clamp10, jsRound]

theorem clamp10N_fin (q : ℚ) :
    clamp10N (JsNum.fin q) = JsNum.fin ((clamp10 q : Int) : ℚ) := by
  simp only [clamp10N, jsRoundN, jsMin, jsMax, clamp10]
  push_cast
  rfl

theorem clamp10N_five : clamp10N (JsNum.fin 5) = JsNum.fin 5 := by
  rw [clamp10N_fin, clamp10_five]
  norm_num

/-! ### Claims -/

/-- C1: for every identifier that resolves to a profile, the ranked
repository list has length at most 6 and is sorted by star count in
descending order, both before the concurrent per-repository population
(the working set `rankedRepos page`, github.ts lines 124–127) and after
it (the `repos` field of the bundle, re-sorted at github.ts line 277),
for every completion order `popOrder` of the concurrent population. -/
theorem C1_ranked_list_bounded_and_sorted
    (env : GitHubEnv) (u : String) (page popOrder : List ApiRepo) (g : GitHubData)
    (hpage : env.listForUser u = .ok page)
    (hperm : popOrder.Perm (rankedRepos page))
    (hok : (fetchGitHubDataAux env u popOrder).1 = .ok g) :
    (rankedRepos page).length ≤ 6 ∧
    (rankedRepos page).Pairwise apiStarGE ∧
    g.repos.length ≤ 6 ∧
    g.repos.Pairwise ghStarGE := by
  obtain ⟨user, page2, hgu, hpage2, hg⟩ := fetch_ok_inv env u popOrder g hok
  have hpp : page2 = page := by
    rw [hpage] at hpage2
    exact (Except.ok.inj hpage2).symm
  subst hpp
  refine ⟨List.length_take_le 6 _, ?_, ?_, ?_⟩
  · exact (sortApiByStars_pairwise _).sublist (List.take_sublist ..)
  · rw [hg, build_repos_def, sortGhByStars_length, List.length_map,
      List.length_map, hperm.length_eq]
    exact List.length_take_le 6 _
  · rw [hg, build_repos_def]
    exact sortGhByStars_pairwise _

/-- C5: for every ranked repository whose file-tree fetch fails, the
quality-signal record produced at that repository's position has every
boolean flag false, file count 0 and an empty directory listing (it is
`placeholderQuality`), and the overall fetch still succeeds. -/
theorem C5_tree_failure_placeholder
    (env : GitHubEnv) (u : String) (user : ApiUser) (page popOrder : List ApiRepo)
    (hgu : env.getUser u = .ok user)
    (hpage : env.listForUser u = .ok page) :
    (fetchGitHubDataAux env u popOrder).1 =
      .ok (buildGitHubData env u user page popOrder).1 ∧
    (∀ (i : Nat) (r : ApiRepo), popOrder[i]? = some r →
      treeFetchFails env u r.name = true →
      ((buildGitHubData env u user page popOrder).1).codeQuality[i]? =
        some (placeholderQuality r.name)) := by
  refine ⟨?_, ?_⟩
  · rw [fetch_ok_build env u popOrder user page hgu hpage]
  · intro i r hi hf
    rw [build_codeQuality_def]
    simp [List.getElem?_map, hi, processRepo_quality_placeholder env u r hf]

/-- C9 (implicit): for every ranked repository, the commit-activity
record's `totalCommits` is always 0 or 1 (it only encodes whether at
least one commit exists, github.ts line 206) and `recentCommits` never
exceeds the page size 100 of the windowed commit listing. -/
theorem C9_commit_activity_bounds
    (env : GitHubEnv) (u : String) (popOrder : List ApiRepo) (g : GitHubData)
    (hok : (fetchGitHubDataAux env u popOrder).1 = .ok g) :
    ∀ (i : Nat) (c : CommitActivity), g.commitActivity[i]? = some c →
      (c.totalCommits = 0 ∨ c.totalCommits = 1) ∧ c.recentCommits ≤ 100 := by
  obtain ⟨user, page, hgu, hpage, hg⟩ := fetch_ok_inv env u popOrder g hok
  intro i c hc
  rw [hg, build_commitActivity_def] at hc
  simp only [List.getElem?_map] at hc
  cases hp : popOrder[i]? with
  | none => rw [hp] at hc; simp at hc
  | some r =>
    rw [hp] at hc
    simp at hc
    rw [← hc]
    exact processRepo_activity_bounds env u r

/-- C6: the total-stars and total-forks aggregates are the sums over the
full non-fork repository set (all non-forks among the 30 most recently
updated), not merely over the ranked top-6 subset
(github.ts lines 124–131). -/
theorem C6_totals_over_full_set
    (env : GitHubEnv) (u : String) (page popOrder : List ApiRepo) (g : GitHubData)
    (hpage : env.listForUser u = .ok page)
    (hok : (fetchGitHubDataAux env u popOrder).1 = .ok g) :
    g.totalStars =
      (((page.take 30).filter (fun r => !r.fork)).map
        (fun r => r.stargazers_count.getD 0)).sum ∧
    g.totalForks =
      (((page.take 30).filter (fun r => !r.fork)).map
        (fun r => r.forks_count.getD 0)).sum := by
  obtain ⟨user, page2, hgu, hpage2, hg⟩ := fetch_ok_inv env u popOrder g hok
  have hpp : page2 = page := by
    rw [hpage] at hpage2
    exact (Except.ok.inj hpage2).symm
  subst hpp
  constructor
  · rw [hg, build_totalStars_def, foldl_add_eq_sum]
    simp
  · rw [hg, build_totalForks_def, foldl_add_eq_sum]
    simp

/-- C4: for every identifier that does not resolve (the profile lookup
reports 404), the operation fails with the distinguished not-found error
whose message embeds the sanitized identifier, the endpoint maps it to a
404 response carrying that message and issues no repository-related
calls; any other failure (profile lookup failure other than 404,
repository-listing failure, or a critique failure) is mapped to the
generic 500 response without detail. -/
theorem C4_notfound_and_generic_mapping
    (env : GitHubEnv) (groq : GitHubData → GroqReply)
    (popOrder : List ApiRepo) (s : String)
    (hne : sanitize s ≠ "") :
    (env.getUser (sanitize s) = .error .status404 →
      POST env groq popOrder (.jsonBody (.strVal s)) =
        ({ status := 404, body := .errObj (notFoundMessage (sanitize s)) },
         [ApiCall.getUser (sanitize s)]) ∧
      strIncludes (notFoundMessage (sanitize s)) (sanitize s) = true ∧
      (POST env groq popOrder (.jsonBody (.strVal s))).2.all
        (fun c => !repoRelated c) = true) ∧
    (env.getUser (sanitize s) = .error .otherFailure →
      (POST env groq popOrder (.jsonBody (.strVal s))).1 =
        { status := 500, body := .errObj genericErrorMessage }) ∧
    ((fetchGitHubDataAux env (sanitize s) popOrder).1 = .error .genericErr →
      (POST env groq popOrder (.jsonBody (.strVal s))).1 =
        { status := 500, body := .errObj genericErrorMessage }) ∧
    (∀ (g : GitHubData) (e : String),
      (fetchGitHubDataAux env (sanitize s) popOrder).1 = .ok g →
      analyzeWithGroq (groq g) = .error e →
      (POST env groq popOrder (.jsonBody (.strVal s))).1 =
        { status := 500, body := .errObj genericErrorMessage }) := by
  have hs : s ≠ "" := fun h => hne (by rw [h]; rfl)
  have hpost : POST env groq popOrder (.jsonBody (.strVal s)) =
      runPipeline env groq popOrder (sanitize s) := by
    simp [POST, hs, hne]
  refine ⟨?_, ?_, ?_, ?_⟩
  · intro h404
    have hr := runPipeline_notfound env groq popOrder (sanitize s) h404
    rw [hpost, hr]
    refine ⟨rfl, notFoundMessage_embeds _, ?_⟩
    simp [repoRelated]
  · intro hother
    rw [hpost]
    apply runPipeline_generic
    simp [fetchGitHubDataAux, hother]
  · intro hgen
    rw [hpost]
    exact runPipeline_generic env groq popOrder _ hgen
  · intro g e hok he
    rw [hpost]
    exact runPipeline_groq_error env groq popOrder _ g e hok he

/-- C7: the identifier is sanitized by trimming whitespace and stripping
every character outside alphanumerics and hyphen (equivalently, since
the stripped characters include all whitespace, by the strip alone); the
endpoint returns 400 with no remote calls exactly when the field is
missing, not a string, or empty after sanitization; otherwise the
pipeline proceeds with the sanitized identifier and never yields 400. -/
theorem C7_sanitization_and_400
    (env : GitHubEnv) (groq : GitHubData → GroqReply) (popOrder : List ApiRepo) :
    (∀ s, sanitize s = stripUsername s) ∧
    POST env groq popOrder (.jsonBody .missing) =
      ({ status := 400, body := .errObj "Username is required" }, []) ∧
    POST env groq popOrder (.jsonBody .nonString) =
      ({ status := 400, body := .errObj "Username is required" }, []) ∧
    POST env groq popOrder (.jsonBody (.strVal "")) =
      ({ status := 400, body := .errObj "Username is required" }, []) ∧
    (∀ s, sanitize s = "" → s ≠ "" →
      POST env groq popOrder (.jsonBody (.strVal s)) =
        ({ status := 400, body := .errObj "Invalid username format" }, [])) ∧
    (∀ s, sanitize s ≠ "" →
      POST env groq popOrder (.jsonBody (.strVal s)) =
        runPipeline env groq popOrder (sanitize s) ∧
      (POST env groq popOrder (.jsonBody (.strVal s))).1.status ≠ 400) := by
  refine ⟨sanitize_eq_strip, rfl, rfl, rfl, ?_, ?_⟩
  · intro s hsan hs
    simp [POST, hs, hsan]
  · intro s hne
    have hs : s ≠ "" := fun h => hne (by rw [h]; rfl)
    have hpost : POST env groq popOrder (.jsonBody (.strVal s)) =
        runPipeline env groq popOrder (sanitize s) := by
      simp [POST, hs, hne]
    refine ⟨hpost, ?_⟩
    rw [hpost]
    rcases runPipeline_status env groq popOrder (sanitize s) with h | h | h <;>
      simp [h]

/-- C3 (amended): whenever the critique validation succeeds, the overall
score is an integer clamped into [0,100] rounded to nearest; the
required readme sub-score is an integer clamped into [0,10] rounded
(e.g. a raw value of 13.7 becomes 10); each optional sub-score is the
integer clamp into [0,10] of its raw value when that value is a number,
and defaults to 5 when absent — but a present value whose JavaScript
numeric coercion is NaN (e.g. the string "N/A"), which groq.ts lines
1027–1036 never reject, propagates to a NaN sub-score instead of an
integer in [0,10].  The verdict strings default to the fixed sentinel
when absent (groq.ts lines 1039–1045). -/
theorem C3_critique_clamping
    (raw : RawAnalysis) (a : AnalysisResult)
    (h : analyzeValidate raw = .ok a) :
    (0 ≤ a.score ∧ a.score ≤ 100) ∧
    (∀ q, raw.score = some q → a.score = max 0 (min 100 (jsRound q))) ∧
    (0 ≤ a.readme_score ∧ a.readme_score ≤ 10) ∧
    (∀ q, raw.readme_score = some q →
      a.readme_score = max 0 (min 10 (jsRound q))) ∧
    (raw.readme_score = some (13.7 : ℚ) → a.readme_score = 10) ∧
    (∀ q, raw.code_quality_score = some (JsNum.fin q) →
      a.code_quality_score = JsNum.fin ((clamp10 q : Int) : ℚ) ∧
      0 ≤ clamp10 q ∧ clamp10 q ≤ 10) ∧
    (raw.code_quality_score = none → a.code_quality_score = JsNum.fin 5) ∧
    (raw.code_quality_score = some JsNum.nan →
      a.code_quality_score = JsNum.nan) ∧
    (∀ q, raw.consistency_score = some (JsNum.fin q) →
      a.consistency_score = JsNum.fin ((clamp10 q : Int) : ℚ) ∧
      0 ≤ clamp10 q ∧ clamp10 q ≤ 10) ∧
    (raw.consistency_score = none → a.consistency_score = JsNum.fin 5) ∧
    (raw.consistency_score = some JsNum.nan →
      a.consistency_score = JsNum.nan) ∧
    (∀ q, raw.diversity_score = some (JsNum.fin q) →
      a.diversity_score = JsNum.fin ((clamp10 q : Int) : ℚ) ∧
      0 ≤ clamp10 q ∧ clamp10 q ≤ 10) ∧
    (raw.diversity_score = none → a.diversity_score = JsNum.fin 5) ∧
    (raw.diversity_score = some JsNum.nan →
      a.diversity_score = JsNum.nan) ∧
    (raw.tech_stack_verdict = none →
      a.tech_stack_verdict = "No assessment available.") ∧
    (raw.commit_verdict = none →
      a.commit_verdict = "No assessment available.") := by
  rcases hs : raw.score with _ | qs
  · simp [analyzeValidate, hs] at h
  rcases hh : raw.headline with _ | hlv
  · simp [analyzeValidate, hs, hh] at h
  rcases hrf : raw.red_flags with _ | rfv
  · simp [analyzeValidate, hs, hh, hrf] at h
  rcases hgf : raw.green_flags with _ | gfv
  · simp [analyzeValidate, hs, hh, hrf, hgf] at h
  rcases hrs : raw.readme_score with _ | rsv
  · simp [analyzeValidate, hs, hh, hrf, hgf, hrs] at h
  rcases hip : raw.improvement_plan with _ | ipv
  · simp [analyzeValidate, hs, hh, hrf, hgf, hrs, hip] at h
  have ha : a =
      { score := clamp100 qs
        headline := hlv
        red_flags := rfv
        green_flags := gfv
        readme_score := clamp10 rsv
        code_quality_score := clamp10N (raw.code_quality_score.getD (JsNum.fin 5))
        consistency_score := clamp10N (raw.consistency_score.getD (JsNum.fin 5))
        diversity_score := clamp10N (raw.diversity_score.getD (JsNum.fin 5))
        improvement_plan := ipv
        tech_stack_verdict := raw.tech_stack_verdict.getD "No assessment available."
        commit_verdict := raw.commit_verdict.getD "No assessment available." } := by
    have h2 : analyzeValidate raw = .ok
        { score := clamp100 qs
          headline := hlv
          red_flags := rfv
          green_flags := gfv
          readme_score := clamp10 rsv
          code_quality_score := clamp10N (raw.code_quality_score.getD (JsNum.fin 5))
          consistency_score := clamp10N (raw.consistency_score.getD (JsNum.fin 5))
          diversity_score := clamp10N (raw.diversity_score.getD (JsNum.fin 5))
          improvement_plan := ipv
          tech_stack_verdict := raw.tech_stack_verdict.getD "No assessment available."
          commit_verdict := raw.commit_verdict.getD "No assessment available." } := by
      unfold analyzeValidate
      rw [hs, hh, hrf, hgf, hrs, hip]
    rw [h2] at h
    exact (Except.ok.inj h).symm
  subst ha
  refine ⟨⟨clamp100_nonneg qs, clamp100_le qs⟩, ?_,
    ⟨clamp10_nonneg rsv, clamp10_le rsv⟩, ?_, ?_,
    ?_, ?_, ?_, ?_, ?_, ?_, ?_, ?_, ?_, ?_, ?_⟩
  · intro q hq
    rw [← Option.some.inj hq]
    rfl
  · intro q hq
    rw [← Option.some.inj hq]
    rfl
  · intro h137
    show clamp10 rsv = 10
    rw [Option.some.inj h137]
    exact clamp10_of_13_7
  · intro q hq
    refine ⟨?_, clamp10_nonneg q, clamp10_le q⟩
    show clamp10N (raw.code_quality_score.getD (JsNum.fin 5)) =
      JsNum.fin ((clamp10 q : Int) : ℚ)
    rw [hq]
    exact clamp10N_fin q
  · intro hx
    show clamp10N (raw.code_quality_score.getD (JsNum.fin 5)) = JsNum.fin 5
    rw [hx]
    exact clamp10N_five
  · intro hx
    show clamp10N (raw.code_quality_score.getD (JsNum.fin 5)) = JsNum.nan
    rw [hx]
    rfl
  · intro q hq
    refine ⟨?_, clamp10_nonneg q, clamp10_le q⟩
    show clamp10N (raw.consistency_score.getD (JsNum.fin 5)) =
      JsNum.fin ((clamp10 q : Int) : ℚ)
    rw [hq]
    exact clamp10N_fin q
  · intro hx
    show clamp10N (raw.consistency_score.getD (JsNum.fin 5)) = JsNum.fin 5
    rw [hx]
    exact clamp10N_five
  · intro hx
    show clamp10N (raw.consistency_score.getD (JsNum.fin 5)) = JsNum.nan
    rw [hx]
    rfl
  · intro q hq
    refine ⟨?_, clamp10_nonneg q, clamp10_le q⟩
    show clamp10N (raw.diversity_score.getD (JsNum.fin 5)) =
      JsNum.fin ((clamp10 q : Int) : ℚ)
    rw [hq]
    exact clamp10N_fin q
  · intro hx
    show clamp10N (raw.diversity_score.getD (JsNum.fin 5)) = JsNum.fin 5
    rw [hx]
    exact clamp10N_five
  · intro hx
    show clamp10N (raw.diversity_score.getD (JsNum.fin 5)) = JsNum.nan
    rw [hx]
    rfl
  · intro hx
    show raw.tech_stack_verdict.getD "No assessment available." =
      "No assessment available."
    rw [hx]
    rfl
  · intro hx
    show raw.commit_verdict.getD "No assessment available." =
      "No assessment available."
    rw [hx]
    rfl

/-- C3 (counterexample): `rawNaN` passes the required-field validation,
yet its present non-numeric code-quality sub-score (numeric coercion
NaN) makes the validated sub-score NaN — not an integer clamped into
[0,10] — so the claim as stated is false on the code. -/
theorem C3_counterexample :
    analyzeValidate rawNaN = Except.ok aNaN ∧
    rawNaN.code_quality_score = some JsNum.nan ∧
    aNaN.code_quality_score = JsNum.nan ∧
    isIntWithin 0 10 aNaN.code_quality_score = false :=
  ⟨rfl, rfl, rfl, rfl⟩

/-- C2 (amended): the merged success response contains the analysis and
every field of the aggregated bundle EXCEPT `topRepoTree` and
`topRepoReadme` (which route.ts lines 32–42 do not copy into the
response object), each unmodified; and on the success path the
orchestrator returns exactly this object with status 200. -/
theorem C2_merge_amended (g : GitHubData) (a : AnalysisResult) :
    ((mergedResponse g a).lookup "user" = some (RVal.userV g.user) ∧
     (mergedResponse g a).lookup "repos" = some (RVal.reposV g.repos) ∧
     (mergedResponse g a).lookup "analysis" = some (RVal.analysisV a) ∧
     (mergedResponse g a).lookup "commitActivity" =
       some (RVal.commitsV g.commitActivity) ∧
     (mergedResponse g a).lookup "codeQuality" =
       some (RVal.qualityV g.codeQuality) ∧
     (mergedResponse g a).lookup "languageStats" =
       some (RVal.langsV g.languageStats) ∧
     (mergedResponse g a).lookup "totalStars" = some (RVal.natV g.totalStars) ∧
     (mergedResponse g a).lookup "totalForks" = some (RVal.natV g.totalForks) ∧
     (mergedResponse g a).lookup "accountAgeDays" =
       some (RVal.intV g.accountAgeDays)) ∧
    (mergedResponse g a).lookup "topRepoTree" = none ∧
    (mergedResponse g a).lookup "topRepoReadme" = none ∧
    (∀ (env : GitHubEnv) (groq : GitHubData → GroqReply)
       (popOrder : List ApiRepo) (u : String) (g2 : GitHubData)
       (calls : List ApiCall) (a2 : AnalysisResult),
      fetchGitHubDataAux env u popOrder = (.ok g2, calls) →
      analyzeWithGroq (groq g2) = .ok a2 →
      runPipeline env groq popOrder u =
        ({ status := 200, body := .jsonObj (mergedResponse g2 a2) }, calls)) := by
  refine ⟨⟨rfl, rfl, rfl, rfl, rfl, rfl, rfl, rfl, rfl⟩, rfl, rfl, ?_⟩
  intro env groq popOrder u g2 calls a2 hfe ha
  exact runPipeline_success env groq popOrder u g2 calls a2 hfe ha

/-- C2 (counterexample): on the `envA` fixture the bundle carries a top
repository file listing and README excerpt, but the response object
built by the orchestrator contains neither field — so the claim that
every field of the bundle (including those two) appears in the merged
response is false. -/
theorem C2_counterexample :
    gA.topRepoTree = some ["src/main.py", "README.md"] ∧
    gA.topRepoReadme = some "Alpha readme body" ∧
    (mergedResponse gA aFull).lookup "topRepoTree" = none ∧
    (mergedResponse gA aFull).lookup "topRepoReadme" = none ∧
    runPipeline envA groqA ordA "alice" =
      ({ status := 200, body := .jsonObj (mergedResponse gA aFull) }, callsA) :=
  ⟨by decide, by decide, rfl, rfl, rfl⟩

/-- C8 (amended): for the top-ranked repository only, the deep dive is
gated on the quality record's directory listing being non-empty; when
the gate passes, the repository's default branch and tree are fetched
again and the blob-path listing is capped at 50 entries; the listing is
null when the gate fails (empty directory listing) or the re-fetch
fails; the raw README is fetched separately and truncated to 3000
characters; neither absence fails the overall request. -/
theorem C8_deep_dive_amended
    (env : GitHubEnv) (u : String) (popOrder : List ApiRepo) (g : GitHubData)
    (hok : (fetchGitHubDataAux env u popOrder).1 = .ok g) :
    (∀ l, g.topRepoTree = some l → l.length ≤ 50) ∧
    (∀ t, g.repos.head? = some t →
      g.topRepoReadme = (env.getReadme u t.name).map (fun s => strTake s 3000)) ∧
    (∀ t q, g.repos.head? = some t →
      g.codeQuality.find? (fun r => r.repo == t.name) = some q →
      q.directoryStructure.length = 0 → g.topRepoTree = none) ∧
    (∀ t, g.repos.head? = some t → treeFetchFails env u t.name = true →
      g.topRepoTree = none) ∧
    (g.repos.head? = none → g.topRepoTree = none ∧ g.topRepoReadme = none) := by
  obtain ⟨user, page, hgu, hpage, hg⟩ := fetch_ok_inv env u popOrder g hok
  subst hg
  refine ⟨?_, ?_, ?_, ?_, ?_⟩
  · intro l hl
    rw [build_topRepoTree_def] at hl
    exact deepDive_tree_le _ _ _ _ _ hl
  · intro t ht
    rw [build_topRepoReadme_def]
    exact deepDive_readme _ _ _ _ _ ht
  · intro t q ht hq hd
    rw [build_topRepoTree_def]
    exact deepDive_empty_dirs _ _ _ _ _ _ ht hq hd
  · intro t ht hf
    rw [build_topRepoTree_def]
    exact deepDive_refetch_fails _ _ _ _ _ ht hf
  · intro hnone
    rw [build_topRepoTree_def, build_topRepoReadme_def]
    exact deepDive_nil_head _ _ _ _ hnone

/-- C8 (counterexample): the claim that the previously fetched tree is
reused (if non-empty) to produce the listing is false on the code.  On
`envC` the top repository's tree is fetched successfully during the
quality phase and is non-empty (one blob, so `fileCount = 1`), yet the
deep dive produces no listing because the tree has no directory entries;
and on `envA` the trace records the repository/tree fetch for the top
repository twice — the deep dive re-fetches instead of reusing. -/
theorem C8_counterexample :
    envC.getTree "carol" "solo" "main" =
      some [{ type := TreeItemType.blob, path := some "main.py" }] ∧
    (fetchGitHubDataAux envC "carol" ordC).1.map
      (fun g => g.codeQuality.map (fun q => (q.repo, q.fileCount))) =
      .ok [("solo", 1)] ∧
    (fetchGitHubDataAux envC "carol" ordC).1.map
      (fun g => g.topRepoTree) = .ok none ∧
    callsA.count (ApiCall.getTree "alice" "alpha") = 2 ∧
    callsA.count (ApiCall.getRepoInfo "alice" "alpha") = 2 :=
  ⟨rfl, rfl, rfl, by decide, by decide⟩

/-- C10 (implicit): a request body that is not valid JSON is caught by
the catch-all handler and yields the generic 500 retry-suggesting
response (not the 400 input-error response), with no remote calls. -/
theorem C10_invalid_json_is_500 (env : GitHubEnv)
    (groq : GitHubData → GroqReply) (popOrder : List ApiRepo) :
    POST env groq popOrder ReqBody.invalidJson =
      ({ status := 500, body := .errObj genericErrorMessage }, []) ∧
    (POST env groq popOrder ReqBody.invalidJson).1.status = 500 :=
  ⟨rfl, rfl⟩

/-! ### Witnesses -/

/-- Witness for C1 at the `envA` fixture. -/
theorem C1_witness :
    (rankedRepos pageA).length ≤ 6 ∧
    (rankedRepos pageA).Pairwise apiStarGE ∧
    gA.repos.length ≤ 6 ∧
    gA.repos.Pairwise ghStarGE :=
  C1_ranked_list_bounded_and_sorted envA "alice" pageA ordA gA rfl
    (List.Perm.refl _) rfl

/-- Witness for C2 at the `envA` fixture with the `rawFull` critique. -/
theorem C2_witness :
    (mergedResponse gA aFull).lookup "user" = some (RVal.userV gA.user) ∧
    (mergedResponse gA aFull).lookup "topRepoTree" = none ∧
    runPipeline envA groqA ordA "alice" =
      ({ status := 200, body := .jsonObj (mergedResponse gA aFull) }, callsA) :=
  have h := C2_merge_amended gA aFull
  ⟨h.1.1, h.2.1, h.2.2.2 envA groqA ordA "alice" gA callsA aFull rfl rfl⟩

/-- Witness for C3 at the `rawMin` fixture (readme sub-score 13.7 clamps
to 10, absent optional sub-scores default to 5, absent verdicts to the
sentinel). -/
theorem C3_witness :
    (0 ≤ aMin.score ∧ aMin.score ≤ 100) ∧
    (0 ≤ aMin.readme_score ∧ aMin.readme_score ≤ 10) ∧
    aMin.readme_score = 10 ∧
    aMin.code_quality_score = JsNum.fin 5 ∧
    aMin.consistency_score = JsNum.fin 5 ∧
    aMin.diversity_score = JsNum.fin 5 ∧
    aMin.tech_stack_verdict = "No assessment available." ∧
    aMin.commit_verdict = "No assessment available." :=
  have h := C3_critique_clamping rawMin aMin rfl
  ⟨h.1, h.2.2.1, h.2.2.2.2.1 rfl,
   h.2.2.2.2.2.2.1 rfl,
   h.2.2.2.2.2.2.2.2.2.1 rfl,
   h.2.2.2.2.2.2.2.2.2.2.2.2.1 rfl,
   h.2.2.2.2.2.2.2.2.2.2.2.2.2.2.1 rfl,
   h.2.2.2.2.2.2.2.2.2.2.2.2.2.2.2 rfl⟩

/-- Witness for C4 at the `envB` fixture (no profile resolves). -/
theorem C4_witness :
    POST envB groqA [] (ReqBody.jsonBody (BodyField.strVal " bob! ")) =
      ({ status := 404, body := ResponseBody.errObj (notFoundMessage "bob") },
       [ApiCall.getUser "bob"]) ∧
    strIncludes (notFoundMessage "bob") "bob" = true :=
  have h := C4_notfound_and_generic_mapping envB groqA [] " bob! " (by decide)
  ⟨(h.1 rfl).1, (h.1 rfl).2.1⟩

/-- Witness for C5 at the `envA` fixture: the tree fetch for "beta"
(position 1 of the ranked order) fails, and its record is the
placeholder while the fetch succeeds. -/
theorem C5_witness :
    (fetchGitHubDataAux envA "alice" ordA).1 =
      .ok (buildGitHubData envA "alice" userA pageA ordA).1 ∧
    ((buildGitHubData envA "alice" userA pageA ordA).1).codeQuality[1]? =
      some (placeholderQuality "beta") :=
  have h := C5_tree_failure_placeholder envA "alice" userA pageA ordA rfl rfl
  ⟨h.1, h.2 1 (mkApiRepo "alice" "beta" 40 4 false) (by decide) (by decide)⟩

/-- Witness for C6 at the `envA` fixture, where the full-set sum (156)
differs from the ranked top-6 sum (155). -/
theorem C6_witness :
    (gA.totalStars =
      (((pageA.take 30).filter (fun r => !r.fork)).map
        (fun r => r.stargazers_count.getD 0)).sum ∧
     gA.totalForks =
      (((pageA.take 30).filter (fun r => !r.fork)).map
        (fun r => r.forks_count.getD 0)).sum) ∧
    gA.totalStars = 156 ∧
    (gA.repos.map (fun r => r.stargazers_count)).sum = 155 :=
  ⟨C6_totals_over_full_set envA "alice" pageA ordA gA rfl rfl,
   by decide, by decide⟩

/-- Witness for C7 at concrete bodies. -/
theorem C7_witness :
    sanitize " li nus?tor-valds_9 " = stripUsername " li nus?tor-valds_9 " ∧
    POST envB groqA [] (ReqBody.jsonBody BodyField.missing) =
      ({ status := 400, body := ResponseBody.errObj "Username is required" }, []) ∧
    POST envB groqA [] (ReqBody.jsonBody (BodyField.strVal " ?! ")) =
      ({ status := 400, body := ResponseBody.errObj "Invalid username format" }, []) ∧
    POST envB groqA [] (ReqBody.jsonBody (BodyField.strVal "bob")) =
      runPipeline envB groqA [] "bob" :=
  have h := C7_sanitization_and_400 envB groqA []
  ⟨h.1 " li nus?tor-valds_9 ", h.2.1,
   h.2.2.2.2.1 " ?! " (by decide) (by decide),
   (h.2.2.2.2.2 "bob" (by decide)).1⟩

/-- Witness for C8 (amended) at the `envC` fixture: the gate fails (no
directories), so the listing is null, and the README is the truncated
raw fetch. -/
theorem C8_witness :
    gC.topRepoTree = none ∧
    gC.topRepoReadme =
      (envC.getReadme "carol" "solo").map (fun s => strTake s 3000) :=
  have h := C8_deep_dive_amended envC "carol" ordC gC rfl
  ⟨h.2.2.1 (gC.repos.head?.getD default)
      ((gC.codeQuality.find?
        (fun r => r.repo == (gC.repos.head?.getD default).name)).getD default)
      (by decide) (by decide) (by decide),
   h.2.1 (gC.repos.head?.getD default) (by decide)⟩

/-- Witness for C9 at the `envA` fixture. -/
theorem C9_witness :
    ((gA.commitActivity[0]?.getD default).totalCommits = 0 ∨
     (gA.commitActivity[0]?.getD default).totalCommits = 1) ∧
    (gA.commitActivity[0]?.getD default).recentCommits ≤ 100 :=
  C9_commit_activity_bounds envA "alice" ordA gA rfl 0
    (gA.commitActivity[0]?.getD default) (by decide)
